import Mathlib

/-!
A verification development for the loop timing/recording/playback engine of
the krait MIDI looper (src/main.js of levibeach/krait).

The engine is shallowly embedded: the mutable program state (the nine loop
slots, the armed pointer, the `recording` and `overdub` flags) becomes an
explicit `Engine` structure, and every handler of the single-threaded event
loop (key handlers, the MIDI input callback, and the bodies of the
`setInterval` timers) becomes a function `Engine → Engine`.  JS numbers that
the engine stores in `frame`/`loopLength` are modelled as `Option ℚ`
(`none` = JS `null`, rationals in place of binary floats; float rounding and
the division-by-zero Infinity/NaN cases are outside the model).  JS `Map`s
(the slot store and each slot's frame→events map) are modelled as
insertion-ordered association lists.  Terminal-UI fields of a slot (`label`,
`display`, `animating`, the animation helper `runMotion`) and the disk
save/load layer are presentation collaborators and are omitted; `debug.log`
output is modelled as an append-only `log` field, and messages sent to the
MIDI output as an append-only `sent` field.
-/

namespace Krait

/-- A raw MIDI message: the byte list delivered by the `midi` library. -/
abbrev MidiMsg := List Nat

/-- A JS number field that may hold `null`: `none` is `null`, values are
modelled as exact rationals. -/
abbrev JsNum := Option ℚ

/-- JS truthiness of a `JsNum`: `null` and `0` are falsy (`!x` in the source,
e.g. `!loop.loopLength`). -/
def jsFalsy : JsNum → Bool
  | none => true
  | some q => decide (q = 0)

/-- JS numeric coercion `Number(x)`: `null` coerces to `0`. -/
def jsToNum : JsNum → ℚ
  | none => 0
  | some q => q

/-- JS `x++` on a possibly-`null` field: `null` is coerced to `0` first. -/
def jsInc : JsNum → JsNum
  | none => some 1
  | some q => some (q + 1)

/-- JS remainder `x % y` for the non-negative operands the engine produces:
`x - y * ⌊x / y⌋` (for `x, y ≥ 0` the JS truncated remainder agrees with the
floor form; `y = 0`, NaN in JS, lies outside the model). -/
def jsMod (x y : ℚ) : ℚ := x - y * (⌊x / y⌋ : ℚ)

/-- Lookup in a JS `Map` modelled as an insertion-ordered association list
(`m.get(k)`, with `m.has(k) = (jsMapGet m k).isSome`). -/
def jsMapGet {α β : Type} [DecidableEq α] : List (α × β) → α → Option β
  | [], _ => none
  | p :: rest, k => if p.1 = k then some p.2 else jsMapGet rest k

/-- JS `m.set(k, v)`: overwrite in place if the key exists, else append. -/
def jsMapSet {α β : Type} [DecidableEq α] : List (α × β) → α → β → List (α × β)
  | [], k, v => [(k, v)]
  | p :: rest, k, v => if p.1 = k then (k, v) :: rest else p :: jsMapSet rest k v

/-- In-place mutation of the value stored under key `k` (mutating through the
object reference returned by `m.get(k)`). -/
def jsMapUpd {α β : Type} [DecidableEq α] (m : List (α × β)) (k : α) (f : β → β) :
    List (α × β) :=
  m.map fun p => if p.1 = k then (p.1, f p.2) else p

/-- The kind of repeating timer a slot's `interval` field currently holds. -/
inductive TimerKind : Type
  | record
  | playback
  deriving DecidableEq, Repr

/-- One loop slot (`setLoop` in src/main.js:238): the recording/playback state
and the sparse frame→events map.  UI handles (`label`, `display`,
`animating`) and the bookkeeping `channels` list are omitted as presentation
state. -/
structure LoopSlot : Type where
  id : ℤ
  frame : JsNum
  loopLength : JsNum
  locked : Bool
  playing : Bool
  interval : Option TimerKind
  data : List (JsNum × List MidiMsg)
  deriving DecidableEq, Repr

/-- The whole engine state: the slot store keyed by id, the global armed
pointer (by slot id; the source holds the object reference), the `recording`
and `overdub` flags, the pending phase-aligned start installed by
`duplicate`, plus the observable outputs (debug log lines and MIDI messages
sent to the output port). -/
structure Engine : Type where
  loops : List (ℤ × LoopSlot)
  armed : Option ℤ
  recording : Bool
  overdub : Bool
  pendingStart : Option (ℤ × ℤ)
  log : List String
  sent : List MidiMsg
  deriving DecidableEq, Repr

/-- `loops.get(i)`. -/
def storeGet (e : Engine) (i : ℤ) : Option LoopSlot := jsMapGet e.loops i

/-- Mutate slot `i` in place (field assignments through the looked-up object
reference). -/
def updateSlot (e : Engine) (i : ℤ) (f : LoopSlot → LoopSlot) : Engine :=
  { e with loops := jsMapUpd e.loops i f }

/-- The frame→events insertion of the MIDI input handler
(src/main.js:630-634): push onto an existing frame's sequence, else create
the sequence for that frame. -/
def addMidiData (d : List (JsNum × List MidiMsg)) (k : JsNum) (m : MidiMsg) :
    List (JsNum × List MidiMsg) :=
  if (jsMapGet d k).isSome then jsMapUpd d k (fun v => v ++ [m]) else jsMapSet d k [m]

/-- A freshly initialized slot (`setLoop(i)`, src/main.js:238). -/
def freshSlot (i : ℤ) : LoopSlot :=
  { id := i, frame := none, loopLength := none, locked := false,
    playing := false, interval := none, data := [] }

/-- Startup state: `initLoops()` fills slots 0-8 (src/main.js:278), the global
flags start cleared (src/main.js:20-25). -/
def initEngine : Engine :=
  { loops := (List.range 9).map fun i => ((i : ℤ), freshSlot i),
    armed := none, recording := false, overdub := false,
    pendingStart := none, log := [], sent := [] }

/-- `recordLoop()` (src/main.js:123-134): mark recording; if the armed slot is
not locked, reset its frame to 0 and install the recording interval.  Label
color changes are UI-only and omitted. -/
def recordLoop (e : Engine) : Engine :=
  match e.armed with
  | none => e
  | some i =>
    let e1 : Engine := { e with recording := true }
    match storeGet e1 i with
    | none => e1
    | some s =>
      if !s.locked then
        updateSlot e1 i fun t => { t with frame := some 0, interval := some TimerKind.record }
      else e1

/-- `startLoop(lid)` (src/main.js:167-194): set `playing`, reset the frame
unless the one-shot `overdub` flag is up, consume `overdub`; a falsy
`loopLength` logs "loop has no length" and returns before installing the
playback interval.  Display animation is UI-only and omitted. -/
def startLoop (e : Engine) (lid : ℤ) : Engine :=
  match storeGet e lid with
  | none => e
  | some _ =>
    let e1 := updateSlot e lid fun t =>
      { t with playing := true, frame := if e.overdub then t.frame else some 0 }
    let e2 : Engine := { e1 with overdub := false }
    match storeGet e2 lid with
    | none => e2
    | some s =>
      if jsFalsy s.loopLength then
        { e2 with log := e2.log ++ ["loop has no length"] }
      else
        updateSlot e2 lid fun t => { t with interval := some TimerKind.playback }

/-- The body of the playback interval installed by `startLoop`
(src/main.js:180-193), fired once per `midiRate` tick for slot `i`: dispatch
every event stored at the current frame, in order, then advance the frame
modulo the loop length. -/
def playTick (e : Engine) (i : ℤ) : Engine :=
  match storeGet e i with
  | none => e
  | some s =>
    let msgs := (jsMapGet s.data s.frame).getD []
    let e1 : Engine := { e with sent := e.sent ++ msgs }
    updateSlot e1 i fun t =>
      { t with frame := some (jsMod (jsToNum t.frame + 1) (jsToNum t.loopLength)) }

/-- `stopLoop(lid)` (src/main.js:202-206): clear `playing` and cancel the
slot's interval.  (The source would throw on a missing slot; its callers
guard the id.) -/
def stopLoop (e : Engine) (lid : ℤ) : Engine :=
  updateSlot e lid fun t => { t with playing := false, interval := none }

/-- `stopRecord()` (src/main.js:145-157): clear `recording`; a falsy
`loopLength` means a first, length-defining pass (lock in the frame count),
otherwise raise the one-shot `overdub` flag; then cancel the recording
interval and immediately start playback of the armed slot.  (Only called
with a slot armed.) -/
def stopRecord (e : Engine) : Engine :=
  match e.armed with
  | none => e
  | some i =>
    let e1 : Engine := { e with recording := false }
    match storeGet e1 i with
    | none => e1
    | some s =>
      let e2 :=
        if jsFalsy s.loopLength then
          updateSlot e1 i fun t => { t with loopLength := t.frame, locked := true }
        else { e1 with overdub := true }
      let e3 := updateSlot e2 i fun t => { t with interval := none }
      startLoop e3 i

/-- `toggleArmed(lid)` (src/main.js:216-230): with a slot armed, stop any
active recording (logging the slot's event count) and disarm; with nothing
armed, arm slot `lid`.  Label colors are UI-only and omitted. -/
def toggleArmed (e : Engine) (lid : ℤ) : Engine :=
  match e.armed with
  | some i =>
    let e1 :=
      if e.recording then
        let e' := stopRecord e
        let n := ((storeGet e' i).map fun s => s.data.length).getD 0
        { e' with log := e'.log ++ ["loop " ++ toString (i + 1) ++ ": " ++ toString n ++ " events"] }
      else e
    { e1 with armed := none }
  | none =>
    match storeGet e lid with
    | some _ => { e with armed := some lid }
    | none => { e with armed := none }

/-- The status bytes recognized by the input filter: exactly the keys of
src/data/midimap.js, i.e. every status byte 128-255. -/
def midiRecognized : MidiMsg → Bool
  | [] => false
  | s :: _ => decide (128 ≤ s) && decide (s ≤ 255)

/-- The `midiIn.on('message')` handler (src/main.js:622-637): recognized
messages reaching an armed slot start recording if it has not started, and
are appended to the armed slot's data at its current frame. -/
def midiMessage (e : Engine) (m : MidiMsg) : Engine :=
  if midiRecognized m then
    match e.armed with
    | none => e
    | some i =>
      let e1 := if !e.recording then recordLoop e else e
      match storeGet e1 i with
      | none => e1
      | some s =>
        updateSlot e1 i fun t => { t with data := addMidiData t.data s.frame m }
  else e

/-- The body of the recording interval installed by `recordLoop`
(src/main.js:129-132): increment the currently armed slot's frame (the
callback reads the global `armed`). -/
def recTick (e : Engine) : Engine :=
  match e.armed with
  | none => e
  | some i => updateSlot e i fun t => { t with frame := jsInc t.frame }

/-- `duplicate(a, b)` (src/main.js:326-362), user-level 1-based ids.  The
source reads both slots, then assigns `frame`/`locked` on the destination
(throwing to the catch if the destination lookup failed, with nothing yet
mutated), then copies `loopLength` from the source (throwing to the catch if
the source lookup failed, with the destination's `frame`/`locked` already
mutated), and finally installs the phase-aligned deferred start. -/
def duplicate (e : Engine) (a b : ℤ) : Engine :=
  let e0 : Engine := { e with log := e.log ++ ["loop " ++ toString a ++ " → loop " ++ toString b] }
  let a1 := a - 1
  let b1 := b - 1
  match storeGet e0 b1 with
  | none => { e0 with log := e0.log ++ ["TypeError"] }
  | some _ =>
    let e1 := updateSlot e0 b1 fun t => { t with frame := some 0, locked := true }
    match storeGet e1 a1 with
    | none => { e1 with log := e1.log ++ ["TypeError"] }
    | some la =>
      let e2 := updateSlot e1 b1 fun t => { t with loopLength := la.loopLength }
      { e2 with pendingStart := some (a1, b1) }

/-- The deferred start installed by `duplicate` (src/main.js:353-358): once
the source slot's frame is 0, start the destination.  (JS `null == 0` is
false, so a `null` frame does not fire it.) -/
def dupTimerFire (e : Engine) : Engine :=
  match e.pendingStart with
  | none => e
  | some p =>
    match storeGet e p.1 with
    | none => e
    | some sa =>
      if sa.frame = some 0 then
        let e1 := startLoop e p.2
        { e1 with pendingStart := none }
      else e

/-- `multiply(a, f)` (src/main.js:369-392): `loopLength *= f` on slot `a-1`;
a failed lookup throws to the catch before any mutation. -/
def multiply (e : Engine) (a : ℤ) (f : ℚ) : Engine :=
  match storeGet e (a - 1) with
  | none => { e with log := e.log ++ ["TypeError"] }
  | some _ =>
    updateSlot e (a - 1) fun t => { t with loopLength := some (jsToNum t.loopLength * f) }

/-- `trim(a, f)` (src/main.js:399-423): `loopLength /= f` on slot `a-1` (JS
float division modelled as exact rational division; `f = 0` is outside the
model); a failed lookup throws to the catch before any mutation. -/
def trim (e : Engine) (a : ℤ) (f : ℚ) : Engine :=
  let e0 : Engine := { e with log := e.log ++ ["loop " ++ toString a ++ " / " ++ toString f] }
  match storeGet e0 (a - 1) with
  | none => { e0 with log := e0.log ++ ["TypeError"] }
  | some _ =>
    updateSlot e0 (a - 1) fun t => { t with loopLength := some (jsToNum t.loopLength / f) }

/-- `clean(a)` (src/main.js:429-434): replace slot `a-1`'s data with a fresh
empty map; a failed lookup throws (to `runSequence`'s catch) before any
mutation. -/
def clean (e : Engine) (a : ℤ) : Engine :=
  let e0 : Engine := { e with log := e.log ++ ["loop " ++ toString a ++ " cleaned"] }
  match storeGet e0 (a - 1) with
  | none => { e0 with log := e0.log ++ ["TypeError"] }
  | some _ =>
    updateSlot e0 (a - 1) fun t => { t with data := [] }

/-- The number-key handler (src/main.js:640-657) on its default path (reset
mode off, no pending action sequence): toggle arming of slot `ch - 1`. -/
def pressNumberKey (e : Engine) (ch : ℕ) : Engine :=
  toggleArmed e ((ch : ℤ) - 1)

/-- The shift-number key handler (src/main.js:660-665): stop the loop if it
is playing, else start it. -/
def shiftKeyPress (e : Engine) (n : ℕ) : Engine :=
  let k : ℤ := (n : ℤ) - 1
  match storeGet e k with
  | none => e
  | some s => if s.playing then stopLoop e k else startLoop e k

/-- `resetLoop(lid)` (src/main.js:290-297): stop the loop and reinstall a
fresh slot in its place. -/
def resetLoop (e : Engine) (lid : ℤ) : Engine :=
  match storeGet e lid with
  | none => e
  | some _ =>
    let e1 := stopLoop e lid
    updateSlot e1 lid fun _ => freshSlot lid

/-- Iterate the recording interval `N` times. -/
def recTickN (e : Engine) : ℕ → Engine
  | 0 => e
  | n + 1 => recTick (recTickN e n)

/-- Iterate slot `i`'s playback interval `t` times. -/
def playTicks (e : Engine) (i : ℤ) : ℕ → Engine
  | 0 => e
  | t + 1 => playTick (playTicks e i t) i

/-- The concatenation of everything playback dispatches over the first `t`
ticks of a loop of length `L` holding the frame map `d`, tick `u` reading
frame `u % L`. -/
def dispatched (d : List (JsNum × List MidiMsg)) (L : ℕ) : ℕ → List MidiMsg
  | 0 => []
  | t + 1 => dispatched d L t ++ (jsMapGet d (some ((t % L : ℕ) : ℚ))).getD []

/-- One atomic task of the single-threaded event loop: a key handler, the
MIDI input callback, or the firing of an installed interval timer.  Timer
firings are guarded by the presence of the matching interval handle;
`resetLoop` steps are restricted to unarmed slots (in the source the armed
object reference would otherwise keep pointing at the destroyed slot). -/
inductive Step : Engine → Engine → Prop
  | key (e : Engine) (ch : ℕ) (h1 : 1 ≤ ch) (h2 : ch ≤ 9) :
      Step e (pressNumberKey e ch)
  | midi (e : Engine) (m : MidiMsg) : Step e (midiMessage e m)
  | recordTick (e : Engine) (i : ℤ) (s : LoopSlot) (h : storeGet e i = some s)
      (hk : s.interval = some TimerKind.record) : Step e (recTick e)
  | playbackTick (e : Engine) (i : ℤ) (s : LoopSlot) (h : storeGet e i = some s)
      (hk : s.interval = some TimerKind.playback) : Step e (playTick e i)
  | shift (e : Engine) (n : ℕ) (h1 : 1 ≤ n) (h2 : n ≤ 9) :
      Step e (shiftKeyPress e n)
  | dup (e : Engine) (a b : ℤ) : Step e (duplicate e a b)
  | dupTimer (e : Engine) : Step e (dupTimerFire e)
  | mul (e : Engine) (a : ℤ) (f : ℚ) : Step e (multiply e a f)
  | tri (e : Engine) (a : ℤ) (f : ℚ) : Step e (trim e a f)
  | cln (e : Engine) (a : ℤ) : Step e (clean e a)
  | reset (e : Engine) (ch : ℕ) (h1 : 1 ≤ ch) (h2 : ch ≤ 9)
      (h : e.armed ≠ some ((ch : ℤ) - 1)) : Step e (resetLoop e ((ch : ℤ) - 1))

/-- Engine states reachable from startup. -/
def Reachable (e : Engine) : Prop := Relation.ReflTransGen Step initEngine e

theorem jsMapGet_upd_self {α β : Type} [DecidableEq α] (m : List (α × β)) (k : α)
    (f : β → β) : jsMapGet (jsMapUpd m k f) k = (jsMapGet m k).map f := by
  induction m with
  | nil => rfl
  | cons p rest ih =>
    by_cases h : p.1 = k
    · simp [jsMapUpd, jsMapGet, h]
    · simpa [jsMapUpd, jsMapGet, h] using ih

theorem jsMapGet_upd_ne {α β : Type} [DecidableEq α] (m : List (α × β)) (k k' : α)
    (f : β → β) (h : k' ≠ k) : jsMapGet (jsMapUpd m k f) k' = jsMapGet m k' := by
  induction m with
  | nil => rfl
  | cons p rest ih =>
    by_cases hp : p.1 = k
    · subst hp
      simp [jsMapUpd, jsMapGet, Ne.symm h]
      simpa [jsMapUpd] using ih
    · by_cases hp' : p.1 = k'
      · simp [jsMapUpd, jsMapGet, hp, hp', h]
      · simpa [jsMapUpd, jsMapGet, hp, hp'] using ih

theorem jsMapGet_set_self {α β : Type} [DecidableEq α] (m : List (α × β)) (k : α)
    (v : β) : jsMapGet (jsMapSet m k v) k = some v := by
  induction m with
  | nil => simp [jsMapSet, jsMapGet]
  | cons p rest ih =>
    by_cases h : p.1 = k
    · simp [jsMapSet, jsMapGet, h]
    · simpa [jsMapSet, jsMapGet, h] using ih

theorem jsMapGet_set_ne {α β : Type} [DecidableEq α] (m : List (α × β)) (k k' : α)
    (v : β) (h : k' ≠ k) : jsMapGet (jsMapSet m k v) k' = jsMapGet m k' := by
  induction m with
  | nil => simp [jsMapSet, jsMapGet, Ne.symm h]
  | cons p rest ih =>
    by_cases hp : p.1 = k
    · subst hp
      simp [jsMapSet, jsMapGet, Ne.symm h]
    · by_cases hp' : p.1 = k'
      · simp [jsMapSet, jsMapGet, hp, hp', h]
      · simpa [jsMapSet, jsMapGet, hp, hp'] using ih

theorem storeGet_updateSlot_self (e : Engine) (i : ℤ) (f : LoopSlot → LoopSlot) :
    storeGet (updateSlot e i f) i = (storeGet e i).map f :=
  jsMapGet_upd_self e.loops i f

theorem storeGet_updateSlot_ne (e : Engine) (i j : ℤ) (f : LoopSlot → LoopSlot)
    (h : j ≠ i) : storeGet (updateSlot e i f) j = storeGet e j :=
  jsMapGet_upd_ne e.loops i j f h

@[simp] theorem updateSlot_armed (e : Engine) (i : ℤ) (f : LoopSlot → LoopSlot) :
    (updateSlot e i f).armed = e.armed := rfl

@[simp] theorem updateSlot_recording (e : Engine) (i : ℤ) (f : LoopSlot → LoopSlot) :
    (updateSlot e i f).recording = e.recording := rfl

@[simp] theorem updateSlot_overdub (e : Engine) (i : ℤ) (f : LoopSlot → LoopSlot) :
    (updateSlot e i f).overdub = e.overdub := rfl

@[simp] theorem updateSlot_log (e : Engine) (i : ℤ) (f : LoopSlot → LoopSlot) :
    (updateSlot e i f).log = e.log := rfl

@[simp] theorem updateSlot_sent (e : Engine) (i : ℤ) (f : LoopSlot → LoopSlot) :
    (updateSlot e i f).sent = e.sent := rfl

@[simp] theorem storeGet_overdub_set (e : Engine) (b : Bool) (i : ℤ) :
    storeGet { e with overdub := b } i = storeGet e i := rfl

@[simp] theorem storeGet_recording_set (e : Engine) (b : Bool) (i : ℤ) :
    storeGet { e with recording := b } i = storeGet e i := rfl

@[simp] theorem storeGet_log_set (e : Engine) (L : List String) (i : ℤ) :
    storeGet { e with log := L } i = storeGet e i := rfl

/-- Claim C1, amended part: `startLoop` on a slot whose `loopLength` is unset
(or zero) logs "loop has no length" and installs no playback interval, but it
is not free of side effects: it sets the slot's `playing` flag, resets the
slot's frame to 0 unless the one-shot `overdub` flag was up (in which case
the frame is kept), and always consumes (clears) the global `overdub` flag.
Length, lock, data, the interval handle, and all other slots are untouched. -/
theorem startLoop_noLength_effects (e : Engine) (lid : ℤ) (s : LoopSlot)
    (hs : storeGet e lid = some s) (hL : jsFalsy s.loopLength = true) :
    (storeGet (startLoop e lid) lid).map LoopSlot.playing = some true ∧
    (storeGet (startLoop e lid) lid).map LoopSlot.frame
      = some (if e.overdub then s.frame else some 0) ∧
    (storeGet (startLoop e lid) lid).map LoopSlot.loopLength = some s.loopLength ∧
    (storeGet (startLoop e lid) lid).map LoopSlot.locked = some s.locked ∧
    (storeGet (startLoop e lid) lid).map LoopSlot.data = some s.data ∧
    (storeGet (startLoop e lid) lid).map LoopSlot.interval = some s.interval ∧
    (startLoop e lid).overdub = false ∧
    (startLoop e lid).log = e.log ++ ["loop has no length"] ∧
    (startLoop e lid).sent = e.sent ∧
    ∀ j, j ≠ lid → storeGet (startLoop e lid) j = storeGet e j := by
  have hs' : jsMapGet e.loops lid = some s := hs
  unfold startLoop
  rw [hs]
  simp only [storeGet, updateSlot, jsMapGet_upd_self, hs', Option.map_some', hL, if_true]
  refine ⟨trivial, trivial, trivial, trivial, trivial, trivial, trivial, trivial, trivial,
    fun j hj => ?_⟩
  exact jsMapGet_upd_ne e.loops lid j _ hj

/-- Witness for `startLoop_noLength_effects` at startup slot 0. -/
theorem startLoop_noLength_effects_witness :
    (storeGet (startLoop initEngine 0) 0).map LoopSlot.playing = some true :=
  (startLoop_noLength_effects initEngine 0 (freshSlot 0) rfl rfl).1

/-- Claim C1, counterexample: on the startup state, `startLoop` of slot 0
(whose `loopLength` is unset) flips the slot's `playing` flag from `false` to
`true` and its frame from `null` to `0` — it is not side-effect free as the
claim states. -/
theorem startLoop_noLength_not_noop :
    (storeGet initEngine 0).map LoopSlot.playing = some false ∧
    (storeGet (startLoop initEngine 0) 0).map LoopSlot.playing = some true ∧
    (storeGet initEngine 0).map LoopSlot.frame = some none ∧
    (storeGet (startLoop initEngine 0) 0).map LoopSlot.frame = some (some 0) :=
  ⟨rfl, rfl, rfl, rfl⟩

theorem startLoop_recording (e : Engine) (lid : ℤ) :
    (startLoop e lid).recording = e.recording := by
  rcases h : jsMapGet e.loops lid with _ | s
  · unfold startLoop
    rw [show storeGet e lid = none from h]
  · have h' : storeGet e lid = some s := h
    unfold startLoop
    rw [h']
    simp only [storeGet, updateSlot, jsMapGet_upd_self, h, Option.map_some']
    by_cases hf : jsFalsy s.loopLength <;> simp [hf]

theorem stopRecord_recording_false (e : Engine) (i : ℤ) (ha : e.armed = some i) :
    (stopRecord e).recording = false := by
  unfold stopRecord
  rw [ha]
  rcases h : jsMapGet e.loops i with _ | s
  · simp only [storeGet, h]
  · simp only [storeGet, updateSlot, h, Option.map_some']
    by_cases hf : jsFalsy s.loopLength <;> simp [hf, startLoop_recording]

/-- Claim C2, amended part: toggling the arm control for slot B while slot A
is armed fully disarms A — running A's stop-record transition when A was
recording, and touching no slot state when A was merely armed-waiting — but
it does not arm B: afterwards no slot is armed (arming B requires a second
invocation). -/
theorem toggleArmed_other_disarms (e : Engine) (i lid : ℤ) (ha : e.armed = some i) :
    (toggleArmed e lid).armed = none ∧
    (toggleArmed e lid).recording = false ∧
    (e.recording = false → (toggleArmed e lid).loops = e.loops) ∧
    (e.recording = true → (toggleArmed e lid).loops = (stopRecord e).loops) := by
  unfold toggleArmed
  rw [ha]
  cases hr : e.recording
  · refine ⟨by simp, by simp [hr], fun _ => by simp, fun h => absurd h (by decide)⟩
  · refine ⟨by simp, by simp [stopRecord_recording_false e i ha],
      fun h => absurd h (by decide), fun _ => by simp⟩

/-- Witness for `toggleArmed_other_disarms`: arm slot 0 from startup, then
invoke the arm toggle for slot 1. -/
theorem toggleArmed_other_disarms_witness :
    (toggleArmed (toggleArmed initEngine 0) 1).armed = none :=
  (toggleArmed_other_disarms (toggleArmed initEngine 0) 0 1 rfl).1

/-- Claim C2, counterexample: with slot 0 armed, invoking the arm operation
for slot 1 leaves no slot armed — slot 1 (the B of the claim) is not the
armed slot afterwards. -/
theorem toggleArmed_other_not_armed :
    (toggleArmed initEngine 0).armed = some 0 ∧
    (toggleArmed (toggleArmed initEngine 0) 1).armed = none :=
  ⟨rfl, rfl⟩

/-- Claim C6, amended part: `duplicate(a, b)` copies `loopLength` from the
source to the destination, resets the destination's frame to 0, sets its
`locked` flag, and does not copy the source's `data`; but the destination's
own prior `data` is left in place (so it ends empty only when it was empty
before).  Slots other than the destination are untouched. -/
theorem duplicate_shape_copy (e : Engine) (a b : ℤ) (sa sb : LoopSlot)
    (hsa : storeGet e (a - 1) = some sa) (hsb : storeGet e (b - 1) = some sb) :
    (storeGet (duplicate e a b) (b - 1)).map LoopSlot.loopLength = some sa.loopLength ∧
    (storeGet (duplicate e a b) (b - 1)).map LoopSlot.frame = some (some 0) ∧
    (storeGet (duplicate e a b) (b - 1)).map LoopSlot.locked = some true ∧
    (storeGet (duplicate e a b) (b - 1)).map LoopSlot.data = some sb.data ∧
    ∀ j, j ≠ b - 1 → storeGet (duplicate e a b) j = storeGet e j := by
  have hsa' : jsMapGet e.loops (a - 1) = some sa := hsa
  have hsb' : jsMapGet e.loops (b - 1) = some sb := hsb
  unfold duplicate
  by_cases hab : a - 1 = b - 1
  · have hsasb : sa = sb := by
      rw [hab, hsb'] at hsa'
      exact (Option.some_inj.mp hsa').symm
    rw [hab]
    simp only [storeGet, updateSlot, hsb', jsMapGet_upd_self, Option.map_some', hsasb]
    exact ⟨trivial, trivial, trivial, trivial, fun j hj => by
      simp only [jsMapGet_upd_ne _ _ _ _ hj]⟩
  · simp only [storeGet, updateSlot, hsb', jsMapGet_upd_self,
      jsMapGet_upd_ne _ _ _ _ hab, hsa', Option.map_some']
    exact ⟨trivial, trivial, trivial, trivial, fun j hj => by
      simp only [jsMapGet_upd_ne _ _ _ _ hj]⟩

/-- Witness for `duplicate_shape_copy` at startup with source user-id 1 and
destination user-id 2. -/
theorem duplicate_shape_copy_witness :
    (storeGet (duplicate initEngine 1 2) 1).map LoopSlot.locked = some true :=
  (duplicate_shape_copy initEngine 1 2 (freshSlot 0) (freshSlot 1) rfl rfl).2.2.1

/-- The scenario refuting claim C6: first-pass record slot 0 for 2 ticks,
first-pass record slot 1 for 1 tick (slot 1 retains one captured event), then
duplicate source user-id 1 (slot 0) onto destination user-id 2 (slot 1). -/
def dupScenario : Engine :=
  duplicate
    (toggleArmed (recTick (midiMessage (toggleArmed
      (toggleArmed (recTick (recTick (midiMessage (toggleArmed initEngine 0)
        [144, 60, 100]))) 0) 1) [128, 60, 0])) 1)
    1 2

/-- Claim C6, counterexample: after `duplicate(1, 2)` the destination slot
holds the source's length (2) but its `data` still contains the event it
recorded earlier — `duplicate` never clears the destination's data, so the
"data empty independent of what slot b held" part of the claim is false. -/
theorem duplicate_dest_data_not_cleared :
    (storeGet dupScenario 1).map LoopSlot.loopLength = some (some 2) ∧
    (storeGet dupScenario 1).map LoopSlot.data = some [(some 0, [[128, 60, 0]])] := by
  exact ⟨by with_unfolding_all rfl, by with_unfolding_all rfl⟩

/-- Claim C8, amended part: a transform whose slot lookup fails logs and
aborts.  For `multiply`, `trim`, `clean`, and for `duplicate` with an
invalid destination, no slot state is mutated.  But `duplicate` with an
invalid source and a valid destination mutates the destination before
aborting: its frame is reset to 0 and its `locked` flag is set (length and
data are left unchanged). -/
theorem transform_failed_lookup (e : Engine) (x b : ℤ) (f : ℚ) (sb : LoopSlot)
    (hx : storeGet e (x - 1) = none) (hb : storeGet e (b - 1) = some sb) :
    (multiply e x f).loops = e.loops ∧
    (trim e x f).loops = e.loops ∧
    (clean e x).loops = e.loops ∧
    (duplicate e b x).loops = e.loops ∧
    (storeGet (duplicate e x b) (b - 1)).map LoopSlot.frame = some (some 0) ∧
    (storeGet (duplicate e x b) (b - 1)).map LoopSlot.locked = some true ∧
    (storeGet (duplicate e x b) (b - 1)).map LoopSlot.loopLength = some sb.loopLength ∧
    (storeGet (duplicate e x b) (b - 1)).map LoopSlot.data = some sb.data := by
  have hx' : jsMapGet e.loops (x - 1) = none := hx
  have hb' : jsMapGet e.loops (b - 1) = some sb := hb
  have hne : x - 1 ≠ b - 1 := by
    intro h
    rw [h, hb'] at hx'
    cases hx'
  refine ⟨?_, ?_, ?_, ?_, ?_⟩
  · unfold multiply
    simp only [storeGet, hx']
  · unfold trim
    simp only [storeGet, hx']
  · unfold clean
    simp only [storeGet, hx']
  · unfold duplicate
    simp only [storeGet, hx']
  · unfold duplicate
    simp only [storeGet, updateSlot, hb', jsMapGet_upd_self,
      jsMapGet_upd_ne _ _ _ _ hne, hx', Option.map_some']
    exact ⟨trivial, trivial, trivial, trivial⟩

/-- Witness for `transform_failed_lookup` at startup with invalid user-id 11
and valid destination user-id 1. -/
theorem transform_failed_lookup_witness :
    (multiply initEngine 11 2).loops = initEngine.loops :=
  (transform_failed_lookup initEngine 11 1 2 (freshSlot 0) rfl rfl).1

/-- Claim C8, counterexample: `duplicate(11, 1)` — source slot lookup fails
(slot index 10 does not exist) — still mutates destination slot 0: its
`locked` flag flips from `false` to `true` and its frame is reset to 0, so
"no state of any slot is mutated by the failed operation" is false. -/
theorem duplicate_failed_source_mutates :
    storeGet initEngine 10 = none ∧
    (storeGet initEngine 0).map LoopSlot.locked = some false ∧
    (storeGet (duplicate initEngine 11 1) 0).map LoopSlot.locked = some true ∧
    (storeGet (duplicate initEngine 11 1) 0).map LoopSlot.frame = some (some 0) :=
  ⟨rfl, rfl, rfl, rfl⟩

theorem jsMapUpd_upd {α β : Type} [DecidableEq α] (m : List (α × β)) (k : α)
    (f g : β → β) :
    jsMapUpd (jsMapUpd m k f) k g = jsMapUpd m k fun v => g (f v) := by
  induction m with
  | nil => rfl
  | cons p rest ih =>
    by_cases h : p.1 = k
    · simpa [jsMapUpd, h] using ih
    · simpa [jsMapUpd, h] using ih

/-- A populated, locked slot of length 4 with two recorded frames, used to
instantiate hypotheses of the general theorems. -/
def demoSlot : LoopSlot :=
  { id := 0, frame := some 0, loopLength := some 4, locked := true,
    playing := false, interval := none,
    data := [(some 0, [[144, 60, 100]]), (some 2, [[128, 60, 0]])] }

/-- A small handcrafted engine holding `demoSlot` at id 0, armed on it and
recording. -/
def demoEngine : Engine :=
  { loops := [(0, demoSlot)],
    armed := some 0, recording := true, overdub := false,
    pendingStart := none, log := [], sent := [] }

/-- Claim C7: `multiply(a, f)` scales the slot's `loopLength` from `L` to
`L * f` and leaves its data map entirely unchanged — the same key-to-sequence
association list, so no key is added, removed, remapped, or duplicated — as
well as its frame, lock, playing and interval state; all other slots are
untouched. -/
theorem multiply_scales_length_only (e : Engine) (a : ℤ) (f : ℚ) (s : LoopSlot)
    (L : ℚ) (hs : storeGet e (a - 1) = some s) (hL : s.loopLength = some L) :
    (storeGet (multiply e a f) (a - 1)).map LoopSlot.loopLength = some (some (L * f)) ∧
    (storeGet (multiply e a f) (a - 1)).map LoopSlot.data = some s.data ∧
    (storeGet (multiply e a f) (a - 1)).map LoopSlot.frame = some s.frame ∧
    (storeGet (multiply e a f) (a - 1)).map LoopSlot.locked = some s.locked ∧
    (storeGet (multiply e a f) (a - 1)).map LoopSlot.playing = some s.playing ∧
    (storeGet (multiply e a f) (a - 1)).map LoopSlot.interval = some s.interval ∧
    ∀ j, j ≠ a - 1 → storeGet (multiply e a f) j = storeGet e j := by
  have hs' : jsMapGet e.loops (a - 1) = some s := hs
  unfold multiply
  simp only [storeGet, updateSlot, hs', jsMapGet_upd_self, Option.map_some', hL, jsToNum]
  exact ⟨trivial, trivial, trivial, trivial, trivial, trivial, fun j hj => by
    simp only [jsMapGet_upd_ne _ _ _ _ hj]⟩

/-- Witness for `multiply_scales_length_only` on a one-slot engine of
length 4, factor 2. -/
theorem multiply_scales_length_only_witness :
    (storeGet (multiply demoEngine 1 2) 0).map LoopSlot.data
      = some [(some 0, [[144, 60, 100]]), (some 2, [[128, 60, 0]])] :=
  (multiply_scales_length_only demoEngine 1 2 demoSlot 4 rfl rfl).2.1

/-- Claim C4: while a locked slot is armed and recording (an overdub pass), a
recognized MIDI message that arrives with the slot's frame counter at `K`,
where `data[K]` already holds the events of an earlier pass, is appended at
the end of `data[K]` — earlier-pass events first — and every other frame's
sequence is unchanged: nothing is overwritten or dropped. -/
theorem overdub_appends (e : Engine) (i : ℤ) (s : LoopSlot) (m : MidiMsg)
    (K : JsNum) (v : List MidiMsg)
    (ha : e.armed = some i) (hr : e.recording = true) (hm : midiRecognized m = true)
    (hs : storeGet e i = some s) (hf : s.frame = K) (hv : jsMapGet s.data K = some v) :
    (storeGet (midiMessage e m) i).map (fun t => jsMapGet t.data K)
      = some (some (v ++ [m])) ∧
    ∀ K', K' ≠ K →
      (storeGet (midiMessage e m) i).map (fun t => jsMapGet t.data K')
        = some (jsMapGet s.data K') := by
  have hs' : jsMapGet e.loops i = some s := hs
  unfold midiMessage
  rw [hm]
  simp only [if_true, ha, hr, Bool.not_true, Bool.false_eq_true, if_false]
  simp only [storeGet, updateSlot, hs', jsMapGet_upd_self, Option.map_some']
  unfold addMidiData
  simp only [hf, hv, Option.isSome_some, if_true]
  constructor
  · simp only [jsMapGet_upd_self, hv, Option.map_some']
  · intro K' hK'
    simp only [jsMapGet_upd_ne _ _ _ _ hK']

/-- Witness for `overdub_appends` on the demo engine (frame 0 already holds a
pass-one event). -/
theorem overdub_appends_witness :
    (storeGet (midiMessage demoEngine [144, 64, 90]) 0).map
        (fun t => jsMapGet t.data (some 0))
      = some (some ([[144, 60, 100]] ++ [[144, 64, 90]])) :=
  (overdub_appends demoEngine 0 demoSlot [144, 64, 90]
    (some 0) [[144, 60, 100]] rfl rfl rfl rfl rfl rfl).1

theorem toggleArmed_arm (e : Engine) (lid : ℤ) (s : LoopSlot)
    (ha : e.armed = none) (hs : storeGet e lid = some s) :
    toggleArmed e lid = { e with armed := some lid } := by
  unfold toggleArmed
  rw [ha, hs]

theorem startLoop_falsy_eq (e : Engine) (lid : ℤ) (s : LoopSlot)
    (hs : storeGet e lid = some s) (hL : jsFalsy s.loopLength = true) :
    startLoop e lid =
      { updateSlot e lid
          (fun t =>
            { t with
              playing := true, frame := if e.overdub then t.frame else some 0 }) with
        overdub := false, log := e.log ++ ["loop has no length"] } := by
  have hs' : jsMapGet e.loops lid = some s := hs
  unfold startLoop
  rw [hs]
  simp only [storeGet, updateSlot, jsMapGet_upd_self, hs', Option.map_some', hL, if_true]

theorem startLoop_playable_eq (e : Engine) (lid : ℤ) (s : LoopSlot) (L : ℚ)
    (hs : storeGet e lid = some s) (ho : e.overdub = false)
    (hL : s.loopLength = some L) (hL0 : L ≠ 0) :
    startLoop e lid = updateSlot { e with overdub := false } lid fun t =>
      { t with
        playing := true, frame := some 0, interval := some TimerKind.playback } := by
  have hs' : jsMapGet e.loops lid = some s := hs
  unfold startLoop
  rw [hs]
  simp only [ho, Bool.false_eq_true, if_false]
  simp only [storeGet, updateSlot, jsMapGet_upd_self, hs', Option.map_some', hL]
  simp only [jsFalsy, decide_eq_true_eq, hL0, if_false]
  rw [jsMapUpd_upd]

theorem stopRecord_first_pass_eq (e : Engine) (i : ℤ) (s : LoopSlot)
    (ha : e.armed = some i) (hs : storeGet e i = some s)
    (hL : jsFalsy s.loopLength = true) :
    stopRecord e =
      startLoop
        (updateSlot { e with recording := false } i fun t =>
          { t with
            loopLength := t.frame, locked := true, interval := none })
        i := by
  have hs' : jsMapGet e.loops i = some s := hs
  unfold stopRecord
  rw [ha]
  simp only [storeGet, hs', hL, if_true]
  unfold updateSlot
  rw [jsMapUpd_upd]

theorem toggleArmed_disarm_recording_eq (e : Engine) (lid i : ℤ)
    (ha : e.armed = some i) (hr : e.recording = true) :
    toggleArmed e lid =
      { stopRecord e with
        armed := none,
        log := (stopRecord e).log ++ ["loop " ++ toString (i + 1) ++ ": "
          ++ toString (((storeGet (stopRecord e) i).map fun s => s.data.length).getD 0)
          ++ " events"] } := by
  unfold toggleArmed
  rw [ha]
  simp only [hr, if_true]

theorem midiMessage_starts_recording (e : Engine) (i : ℤ) (s : LoopSlot)
    (m : MidiMsg) (ha : e.armed = some i) (hr : e.recording = false)
    (hm : midiRecognized m = true) (hs : storeGet e i = some s)
    (hl : s.locked = false) :
    midiMessage e m = updateSlot { e with recording := true } i fun t =>
      { t with
        frame := some 0, interval := some TimerKind.record,
        data := addMidiData t.data (some 0) m } := by
  have hs' : jsMapGet e.loops i = some s := hs
  unfold midiMessage recordLoop
  simp only [hm, if_true, ha, hr, Bool.not_false, ite_self, if_true]
  simp only [storeGet, updateSlot, hs', Option.map_some', hl, Bool.not_false, if_true]
  simp only [jsMapGet_upd_self, hs', Option.map_some']
  rw [jsMapUpd_upd]

theorem recTickN_char (e : Engine) (i : ℤ) (s : LoopSlot) (k : ℚ) (N : ℕ)
    (ha : e.armed = some i) (hs : storeGet e i = some s) (hf : s.frame = some k) :
    (recTickN e N).armed = e.armed ∧
    (recTickN e N).recording = e.recording ∧
    (recTickN e N).overdub = e.overdub ∧
    storeGet (recTickN e N) i = some { s with frame := some (k + N) } := by
  induction N with
  | zero =>
    refine ⟨rfl, rfl, rfl, ?_⟩
    have hk0 : k + ((0 : ℕ) : ℚ) = k := by push_cast; ring
    rw [hk0]
    show storeGet e i = some { s with frame := some k }
    rw [hs, ← hf]
  | succ N ih =>
    obtain ⟨ih1, ih2, ih3, ih4⟩ := ih
    have harm : (recTickN e N).armed = some i := by rw [ih1, ha]
    refine ⟨?_, ?_, ?_, ?_⟩
    · show (recTick (recTickN e N)).armed = e.armed
      unfold recTick
      rw [harm]
      simpa using ih1
    · show (recTick (recTickN e N)).recording = e.recording
      unfold recTick
      rw [harm]
      simpa using ih2
    · show (recTick (recTickN e N)).overdub = e.overdub
      unfold recTick
      rw [harm]
      simpa using ih3
    · show storeGet (recTick (recTickN e N)) i = _
      unfold recTick
      rw [harm]
      rw [storeGet_updateSlot_self, ih4]
      have hcast : k + ((N : ℚ)) + 1 = k + (((N + 1 : ℕ)) : ℚ) := by push_cast; ring
      simp only [Option.map_some', jsInc, hcast]

/-- Stopping an active first-pass recording (armed slot `i`, recording, loop
length unset, frame counter at `q`): the slot is locked with
`loopLength = q`, playback starts at frame 0, and the playback interval is
installed exactly when `q ≠ 0`. -/
theorem stop_first_pass (e : Engine) (lid i : ℤ) (s : LoopSlot) (q : ℚ)
    (ha : e.armed = some i) (hr : e.recording = true) (ho : e.overdub = false)
    (hs : storeGet e i = some s) (hL : s.loopLength = none) (hf : s.frame = some q) :
    (toggleArmed e lid).armed = none ∧
    (toggleArmed e lid).recording = false ∧
    (storeGet (toggleArmed e lid) i).map LoopSlot.loopLength = some (some q) ∧
    (storeGet (toggleArmed e lid) i).map LoopSlot.locked = some true ∧
    (storeGet (toggleArmed e lid) i).map LoopSlot.playing = some true ∧
    (storeGet (toggleArmed e lid) i).map LoopSlot.frame = some (some 0) ∧
    (q ≠ 0 → (storeGet (toggleArmed e lid) i).map LoopSlot.interval
      = some (some TimerKind.playback)) ∧
    (q = 0 → (storeGet (toggleArmed e lid) i).map LoopSlot.interval = some none) := by
  have hs' : jsMapGet e.loops i = some s := hs
  have hfalsy : jsFalsy s.loopLength = true := by rw [hL]; rfl
  have hsr := stopRecord_first_pass_eq e i s ha hs hfalsy
  have hsE2 : storeGet (updateSlot { e with recording := false } i fun t =>
      { t with
        loopLength := t.frame, locked := true, interval := none }) i
      = some { s with loopLength := some q, locked := true, interval := none } := by
    rw [storeGet_updateSlot_self,
      show storeGet { e with recording := false } i = some s from hs]
    simp only [Option.map_some', hf]
  have hglob : (toggleArmed e lid).armed = none ∧ (toggleArmed e lid).recording = false := by
    rw [toggleArmed_disarm_recording_eq e lid i ha hr]
    exact ⟨rfl, stopRecord_recording_false e i ha⟩
  have hstore : storeGet (toggleArmed e lid) i = storeGet (stopRecord e) i := by
    rw [toggleArmed_disarm_recording_eq e lid i ha hr]
    rfl
  rcases eq_or_ne q 0 with hq | hq
  · have hfalsy2 : jsFalsy (LoopSlot.loopLength
        { s with loopLength := some q, locked := true, interval := none }) = true := by
      simp [jsFalsy, hq]
    have hslot : storeGet (toggleArmed e lid) i
        = some
          { s with
            loopLength := some q, locked := true, interval := none,
            playing := true, frame := some 0 } := by
      rw [hstore, hsr, startLoop_falsy_eq _ i _ hsE2 hfalsy2]
      simp only [storeGet, updateSlot, jsMapGet_upd_self, jsMapUpd_upd, hs',
        Option.map_some', ho, Bool.false_eq_true, if_false, hf]
    refine ⟨hglob.1, hglob.2, ?_, ?_, ?_, ?_, fun hne => absurd hq hne, fun _ => ?_⟩ <;>
      rw [hslot] <;> rfl
  · have hslot : storeGet (toggleArmed e lid) i
        = some
          { s with
            loopLength := some q, locked := true, playing := true,
            frame := some 0, interval := some TimerKind.playback } := by
      rw [hstore, hsr, startLoop_playable_eq _ i _ q hsE2 (by simpa using ho) rfl hq]
      simp only [storeGet, updateSlot, jsMapGet_upd_self, jsMapUpd_upd, hs',
        Option.map_some', hf]
    refine ⟨hglob.1, hglob.2, ?_, ?_, ?_, ?_, fun _ => ?_, fun h0 => absurd h0 hq⟩ <;>
      rw [hslot] <;> rfl

theorem midiMessage_starts_projections (e : Engine) (i : ℤ) (s : LoopSlot)
    (m : MidiMsg) (ha : e.armed = some i) (hr : e.recording = false)
    (hm : midiRecognized m = true) (hs : storeGet e i = some s)
    (hl : s.locked = false) :
    (midiMessage e m).armed = some i ∧
    (midiMessage e m).recording = true ∧
    (midiMessage e m).overdub = e.overdub ∧
    storeGet (midiMessage e m) i = some
      { s with
        frame := some 0, interval := some TimerKind.record,
        data := addMidiData s.data (some 0) m } := by
  rw [midiMessage_starts_recording e i s m ha hr hm hs hl]
  refine ⟨ha, rfl, rfl, ?_⟩
  rw [storeGet_updateSlot_self,
    show storeGet { e with recording := true } i = some s from hs]
  rfl

/-- Scenario harness for the first-pass recording cycle: arm slot `lid`,
receive one recognized MIDI message (which starts recording and is itself
captured at frame 0), let the recording clock tick `N` times, then toggle
the same slot again to stop. -/
def firstPassRun (e : Engine) (lid : ℤ) (m : MidiMsg) (N : ℕ) : Engine :=
  toggleArmed (recTickN (midiMessage (toggleArmed e lid) m) N) lid

/-- Claim C3: from an idle engine (nothing armed, not recording, overdub
clear) and a slot with `loopLength` unset, arming the slot, recording while
the frame clock ticks `N` times, then stopping the recording yields
`loopLength = N` and `locked = true`, and playback of that same slot starts
immediately as part of the stop-record transition: `playing` is set, the
frame is reset to 0, and for `N ≥ 1` the playback interval is installed. -/
theorem first_pass_locks_length (e : Engine) (lid : ℤ) (s : LoopSlot)
    (m : MidiMsg) (N : ℕ)
    (ha : e.armed = none) (hr : e.recording = false) (ho : e.overdub = false)
    (hs : storeGet e lid = some s) (hL : s.loopLength = none)
    (hk : s.locked = false) (hm : midiRecognized m = true) :
    (storeGet (firstPassRun e lid m N) lid).map LoopSlot.loopLength
      = some (some (N : ℚ)) ∧
    (storeGet (firstPassRun e lid m N) lid).map LoopSlot.locked = some true ∧
    (storeGet (firstPassRun e lid m N) lid).map LoopSlot.playing = some true ∧
    (storeGet (firstPassRun e lid m N) lid).map LoopSlot.frame = some (some 0) ∧
    (1 ≤ N → (storeGet (firstPassRun e lid m N) lid).map LoopSlot.interval
      = some (some TimerKind.playback)) := by
  have h1 := toggleArmed_arm e lid s ha hs
  have e1a : (toggleArmed e lid).armed = some lid := by rw [h1]
  have e1r : (toggleArmed e lid).recording = false := by rw [h1]; exact hr
  have e1o : (toggleArmed e lid).overdub = false := by rw [h1]; exact ho
  have e1s : storeGet (toggleArmed e lid) lid = some s := by rw [h1]; exact hs
  obtain ⟨m1, m2, m3, m4⟩ :=
    midiMessage_starts_projections (toggleArmed e lid) lid s m e1a e1r hm e1s hk
  obtain ⟨t1, t2, t3, t4⟩ :=
    recTickN_char (midiMessage (toggleArmed e lid) m) lid _ 0 N m1 m4 rfl
  have sp := stop_first_pass (recTickN (midiMessage (toggleArmed e lid) m) N)
    lid lid _ (0 + (N : ℚ))
    (by rw [t1, m1]) (by rw [t2, m2]) (by rw [t3, m3, e1o]) t4 hL rfl
  have hcast : (0 : ℚ) + (N : ℚ) = (N : ℚ) := zero_add _
  unfold firstPassRun
  refine ⟨?_, sp.2.2.2.1, sp.2.2.2.2.1, sp.2.2.2.2.2.1, fun hN => ?_⟩
  · rw [← hcast]
    exact sp.2.2.1
  · refine sp.2.2.2.2.2.2.1 ?_
    rw [hcast]
    exact_mod_cast Nat.one_le_iff_ne_zero.mp hN

/-- Witness for `first_pass_locks_length`: record slot 0 for 3 ticks from
startup. -/
theorem first_pass_locks_length_witness :
    (storeGet (firstPassRun initEngine 0 [144, 60, 100] 3) 0).map LoopSlot.locked
      = some true :=
  (first_pass_locks_length initEngine 0 (freshSlot 0) [144, 60, 100] 3
    rfl rfl rfl rfl rfl rfl rfl).2.1

/-- A slot stuck in the zero-length-locked state of claim C10: locked, with
`loopLength = 0`, no interval. -/
def deadSlot : LoopSlot :=
  { id := 0, frame := some 0, loopLength := some 0, locked := true,
    playing := true, interval := none, data := [(some 0, [[144, 60, 100]])] }

/-- An engine holding `deadSlot` at id 0, re-armed on it. -/
def deadSlotEngine : Engine :=
  { loops := [(0, deadSlot)],
    armed := some 0, recording := false, overdub := false,
    pendingStart := none, log := [], sent := [] }

/-- Claim C10: stopping the first recording pass of a fresh slot while the
frame counter is still 0 sets `loopLength = 0` and `locked = true`, with no
playback interval installed.  Thereafter (state `e'` with the slot in that
shape), `startLoop` logs "loop has no length", installs no interval, and
sends nothing; and a later record pass treats the slot as locked: the slot —
frame included — is untouched by `recordLoop`, and no recording clock is
started.  The slot is locked yet unplayable until reset. -/
theorem zero_length_recording_locks_unplayable (e : Engine) (lid : ℤ)
    (s : LoopSlot) (m : MidiMsg) (e' : Engine) (s' : LoopSlot)
    (ha : e.armed = none) (hr : e.recording = false) (ho : e.overdub = false)
    (hs : storeGet e lid = some s) (hL : s.loopLength = none)
    (hk : s.locked = false) (hm : midiRecognized m = true)
    (ha' : e'.armed = some lid) (hs' : storeGet e' lid = some s')
    (hL' : s'.loopLength = some 0) (hk' : s'.locked = true) :
    (storeGet (firstPassRun e lid m 0) lid).map LoopSlot.loopLength
      = some (some 0) ∧
    (storeGet (firstPassRun e lid m 0) lid).map LoopSlot.locked = some true ∧
    (storeGet (firstPassRun e lid m 0) lid).map LoopSlot.interval = some none ∧
    (startLoop e' lid).log = e'.log ++ ["loop has no length"] ∧
    (storeGet (startLoop e' lid) lid).map LoopSlot.interval = some s'.interval ∧
    (startLoop e' lid).sent = e'.sent ∧
    (recordLoop e').loops = e'.loops ∧
    (recordLoop e').recording = true := by
  have h1 := toggleArmed_arm e lid s ha hs
  have e1a : (toggleArmed e lid).armed = some lid := by rw [h1]
  have e1r : (toggleArmed e lid).recording = false := by rw [h1]; exact hr
  have e1o : (toggleArmed e lid).overdub = false := by rw [h1]; exact ho
  have e1s : storeGet (toggleArmed e lid) lid = some s := by rw [h1]; exact hs
  obtain ⟨m1, m2, m3, m4⟩ :=
    midiMessage_starts_projections (toggleArmed e lid) lid s m e1a e1r hm e1s hk
  have sp := stop_first_pass (midiMessage (toggleArmed e lid) m)
    lid lid _ 0 m1 m2 (by rw [m3, e1o]) m4 hL rfl
  have hfalsy' : jsFalsy s'.loopLength = true := by
    rw [hL']
    with_unfolding_all rfl
  have hsl := startLoop_falsy_eq e' lid s' hs' hfalsy'
  have hs'' : jsMapGet e'.loops lid = some s' := hs'
  refine ⟨sp.2.2.1, sp.2.2.2.1, sp.2.2.2.2.2.2.2 rfl, ?_, ?_, ?_, ?_, ?_⟩
  · rw [hsl]
  · rw [hsl]
    simp only [storeGet, updateSlot, jsMapGet_upd_self, hs'', Option.map_some']
  · rw [hsl]
    rfl
  · unfold recordLoop
    rw [ha']
    simp only [storeGet, hs'', hk', Bool.not_true, Bool.false_eq_true, if_false]
  · unfold recordLoop
    rw [ha']
    simp only [storeGet, hs'', hk', Bool.not_true, Bool.false_eq_true, if_false]

/-- Witness for `zero_length_recording_locks_unplayable`: stop at tick 0 from
startup, then examine the dead-slot engine. -/
theorem zero_length_recording_locks_unplayable_witness :
    (startLoop deadSlotEngine 0).log = deadSlotEngine.log ++ ["loop has no length"] :=
  (zero_length_recording_locks_unplayable initEngine 0 (freshSlot 0)
    [144, 60, 100] deadSlotEngine deadSlot rfl rfl rfl rfl rfl rfl rfl
    rfl rfl rfl rfl).2.2.2.1

/-- Claim C9, amended part: the transition into Recording does not stop the
armed slot's playback clock.  With the armed slot locked (the overdub case),
`recordLoop` only raises the global `recording` flag and leaves the whole
slot store — including a running playback interval on the armed slot itself —
completely untouched; overdub recording relies on that still-running
playback clock to advance the frame. -/
theorem recordLoop_keeps_clocks (e : Engine) (i : ℤ) (s : LoopSlot)
    (ha : e.armed = some i) (hs : storeGet e i = some s) (hl : s.locked = true) :
    (recordLoop e).recording = true ∧ (recordLoop e).loops = e.loops := by
  have hs' : jsMapGet e.loops i = some s := hs
  unfold recordLoop
  rw [ha]
  simp only [storeGet, hs', hl, Bool.not_true, Bool.false_eq_true, if_false]
  exact ⟨trivial, trivial⟩

/-- Witness for `recordLoop_keeps_clocks` on the demo engine. -/
theorem recordLoop_keeps_clocks_witness :
    (recordLoop demoEngine).loops = demoEngine.loops :=
  (recordLoop_keeps_clocks demoEngine 0 demoSlot rfl rfl rfl).2

/-- The scenario refuting claim C9: first-pass record slot 0 for 2 ticks
(stopping starts its playback clock), re-arm slot 0, then let a MIDI message
arrive: recording restarts (overdub) while slot 0's playback interval is
still installed. -/
def overdubScenario : Engine :=
  midiMessage (toggleArmed (firstPassRun initEngine 0 [144, 60, 100] 2) 0)
    [144, 62, 100]

/-- Claim C9, counterexample: the state in which slot 0 is actively
recording (armed with the global recording flag set) while its own playback
interval is still running is reachable from startup — the transition into
Recording did not stop the slot's playback clock. -/
theorem overdub_recording_keeps_playback_clock :
    Reachable overdubScenario ∧
    overdubScenario.recording = true ∧
    overdubScenario.armed = some 0 ∧
    (storeGet overdubScenario 0).map LoopSlot.interval
      = some (some TimerKind.playback) ∧
    (storeGet overdubScenario 0).map LoopSlot.playing = some true := by
  refine ⟨?_, by with_unfolding_all rfl, by with_unfolding_all rfl,
    by with_unfolding_all rfl, by with_unfolding_all rfl⟩
  have s1 : Step initEngine (toggleArmed initEngine 0) :=
    Step.key initEngine 1 (by decide) (by decide)
  have s2 : Step (toggleArmed initEngine 0)
      (midiMessage (toggleArmed initEngine 0) [144, 60, 100]) :=
    Step.midi _ _
  have s3 : Step (midiMessage (toggleArmed initEngine 0) [144, 60, 100])
      (recTick (midiMessage (toggleArmed initEngine 0) [144, 60, 100])) :=
    Step.recordTick _ 0 _ (by with_unfolding_all rfl) (by with_unfolding_all rfl)
  have s4 : Step (recTick (midiMessage (toggleArmed initEngine 0) [144, 60, 100]))
      (recTick (recTick (midiMessage (toggleArmed initEngine 0) [144, 60, 100]))) :=
    Step.recordTick _ 0 _ (by with_unfolding_all rfl) (by with_unfolding_all rfl)
  have s5 : Step (recTick (recTick (midiMessage (toggleArmed initEngine 0) [144, 60, 100])))
      (firstPassRun initEngine 0 [144, 60, 100] 2) :=
    Step.key _ 1 (by decide) (by decide)
  have s6 : Step (firstPassRun initEngine 0 [144, 60, 100] 2)
      (toggleArmed (firstPassRun initEngine 0 [144, 60, 100] 2) 0) :=
    Step.key _ 1 (by decide) (by decide)
  have s7 : Step (toggleArmed (firstPassRun initEngine 0 [144, 60, 100] 2) 0)
      overdubScenario :=
    Step.midi _ _
  exact Relation.ReflTransGen.tail (Relation.ReflTransGen.tail
    (Relation.ReflTransGen.tail (Relation.ReflTransGen.tail
      (Relation.ReflTransGen.tail (Relation.ReflTransGen.tail
        (Relation.ReflTransGen.single s1) s2) s3) s4) s5) s6) s7

theorem jsMod_natCast (a b : ℕ) : jsMod (a : ℚ) (b : ℚ) = ((a % b : ℕ) : ℚ) := by
  unfold jsMod
  have h1 : ⌊(a : ℚ) / (b : ℚ)⌋ = (a : ℤ) / (b : ℤ) := by
    simpa using Rat.floor_intCast_div_natCast (a : ℤ) b
  have h2 : ((a % b : ℕ) : ℤ) = (a : ℤ) - (b : ℤ) * ((a : ℤ) / (b : ℤ)) := by
    rw [Int.natCast_mod]
    exact Int.emod_def _ _
  rw [h1]
  have h4 : ((a % b : ℕ) : ℚ)
      = (((a : ℤ) - (b : ℤ) * ((a : ℤ) / (b : ℤ)) : ℤ) : ℚ) := by
    rw [← h2]
    norm_cast
  rw [h4]
  push_cast
  ring

theorem jsMod_step (t L : ℕ) :
    jsMod (((t % L : ℕ) : ℚ) + 1) (L : ℚ) = (((t + 1) % L : ℕ) : ℚ) := by
  have h : ((t % L : ℕ) : ℚ) + 1 = (((t % L + 1) : ℕ) : ℚ) := by push_cast; ring
  rw [h, jsMod_natCast, Nat.mod_add_mod]

theorem playTicks_char (e : Engine) (i : ℤ) (s : LoopSlot) (L : ℕ)
    (hs : storeGet e i = some s) (hf : s.frame = some 0)
    (hlen : s.loopLength = some (L : ℚ)) (t : ℕ) :
    storeGet (playTicks e i t) i = some { s with frame := some ((t % L : ℕ) : ℚ) } ∧
    (playTicks e i t).sent = e.sent ++ dispatched s.data L t := by
  induction t with
  | zero =>
    constructor
    · show storeGet e i = _
      have h0 : (((0 % L : ℕ)) : ℚ) = 0 := by norm_num
      rw [h0, hs, ← hf]
    · show e.sent = e.sent ++ dispatched s.data L 0
      simp [dispatched]
  | succ t ih =>
    obtain ⟨ih1, ih2⟩ := ih
    have ih1' : jsMapGet (playTicks e i t).loops i
        = some { s with frame := some ((t % L : ℕ) : ℚ) } := ih1
    constructor
    · show storeGet (playTick (playTicks e i t) i) i = _
      unfold playTick
      rw [ih1]
      simp only [storeGet, updateSlot, jsMapGet_upd_self, ih1', Option.map_some',
        jsToNum, hlen, jsMod_step]
    · show (playTick (playTicks e i t) i).sent = _
      unfold playTick
      rw [ih1]
      show (playTicks e i t).sent
          ++ (jsMapGet s.data (some ((t % L : ℕ) : ℚ))).getD [] = _
      rw [ih2, dispatched, List.append_assoc]

/-- Claim C5: for a playing slot with `loopLength = L ≥ 1`, starting playback
with the overdub flag clear resets the frame to 0; each clock tick first
dispatches every event stored at `data[frame]`, in stored order, onto the
MIDI output stream, then advances the frame to `(frame + 1) mod L`.  After
`t` ticks the frame is `t mod L` — the sequence `0, 1, ..., L-1, 0, 1, ...` —
the total output is the concatenation of the per-tick frame lookups, and the
slot state is strictly periodic with period `L` for any number of ticks. -/
theorem playback_periodic (e : Engine) (i : ℤ) (s : LoopSlot) (L t : ℕ)
    (hs : storeGet e i = some s) (ho : e.overdub = false)
    (hlen : s.loopLength = some (L : ℚ)) (hL : 1 ≤ L) :
    (storeGet (playTicks (startLoop e i) i t) i).map LoopSlot.frame
      = some (some ((t % L : ℕ) : ℚ)) ∧
    (storeGet (playTicks (startLoop e i) i t) i).map LoopSlot.playing = some true ∧
    (playTicks (startLoop e i) i t).sent = e.sent ++ dispatched s.data L t ∧
    (playTicks (startLoop e i) i (t + 1)).sent
      = (playTicks (startLoop e i) i t).sent
        ++ (jsMapGet s.data (some ((t % L : ℕ) : ℚ))).getD [] ∧
    storeGet (playTicks (startLoop e i) i (t + L)) i
      = storeGet (playTicks (startLoop e i) i t) i := by
  have hL0 : (L : ℚ) ≠ 0 := by
    exact_mod_cast Nat.one_le_iff_ne_zero.mp hL
  have hsl := startLoop_playable_eq e i s (L : ℚ) hs ho hlen hL0
  have hs2 : storeGet (startLoop e i) i = some
      { s with
        playing := true, frame := some 0, interval := some TimerKind.playback } := by
    rw [hsl, storeGet_updateSlot_self,
      show storeGet { e with overdub := false } i = some s from hs]
    rfl
  have hsent2 : (startLoop e i).sent = e.sent := by
    rw [hsl]
    rfl
  have hchar := playTicks_char (startLoop e i) i _ L hs2 rfl hlen
  refine ⟨?_, ?_, ?_, ?_, ?_⟩
  · rw [(hchar t).1]
    rfl
  · rw [(hchar t).1]
    rfl
  · rw [(hchar t).2, hsent2]
  · rw [(hchar (t + 1)).2, (hchar t).2, dispatched, List.append_assoc]
  · rw [(hchar (t + L)).1, (hchar t).1, Nat.add_mod_right]

/-- Witness for `playback_periodic` on the demo slot (length 4), 6 ticks. -/
theorem playback_periodic_witness :
    (playTicks (startLoop demoEngine 0) 0 6).sent
      = demoEngine.sent ++ dispatched demoSlot.data 4 6 :=
  (playback_periodic demoEngine 0 demoSlot 4 6 rfl rfl
    (by with_unfolding_all rfl) (by decide)).2.2.1

end Krait
